import Mathlib

/-!
Shallow embedding of `build.py` (vmodem99-a build orchestration script).

The script is modelled as pure functions over an explicit environment:
`which` records the outcome of each `which <dep>` probe, `run` records the
returncode / decoded stdout / decoded stderr of each `subprocess.Popen`
invocation, and `pathExists` is the initial filesystem seen by
`os.path.exists`.  Every observable action of the script (a printed line, a
probe, a spawned command, a created directory) is recorded in a trace of
`Effect`s, in execution order.
-/

namespace VModem

/-- One observable effect of the script: a line printed to its standard
output, a `which` probe spawned by `subprocess.call` (stdout and stderr
piped away), a command spawned by `subprocess.Popen`, or a directory created
by `os.makedirs`. -/
inductive Effect where
  | print (line : String)
  | probe (dep : String)
  | spawn (cmd : String)
  | mkdir (path : String)
deriving DecidableEq

/-- The ambient execution environment the script runs against.  `which dep`
is true when `subprocess.call ("which " ++ dep)` exits with status 0 (the
tool resolves on the search path); `run cmd` is the returncode, decoded
stdout and decoded stderr produced by spawning `cmd` through the shell;
`pathExists` is `os.path.exists` on the initial filesystem. -/
structure Env where
  which : String → Bool
  run : String → Nat × String × String
  pathExists : String → Bool

/-- `build.py` lines 6-15.  Spawns the command, waits, and then either
prints the decoded stdout (exit status 0) or prints an error line naming the
command followed by the decoded stderr (non-zero exit status).  The function
body has no return statement, so its Python return value is None; the second
component records that value. -/
def run_command (env : Env) (command : String) : List Effect × Option String :=
  if (env.run command).1 ≠ 0 then
    ([Effect.spawn command,
      Effect.print ("Error running command: " ++ command),
      Effect.print (env.run command).2.2], none)
  else
    ([Effect.spawn command, Effect.print (env.run command).2.1], none)

/-- `build.py` line 19: the fixed dependency list. -/
def dependencies : List String :=
  ["figlet", "argc", "wget", "curl", "telnet", "ssh", "mosh", "bash"]

/-- The for-loop of `build.py` lines 22-24: probe each name in order with
`which`, appending the name to the accumulated `missing_deps` list when the
probe exits non-zero.  Returns the final missing list and the probe trace. -/
def depLoop (which : String → Bool) : List String → List String → List String × List Effect
  | [], acc => (acc, [])
  | dep :: rest, acc =>
    let r := depLoop which rest (if which dep then acc else acc ++ [dep])
    (r.1, Effect.probe dep :: r.2)

/-- The `missing_deps` list `checkDeps` has built once its loop is done. -/
def missing_deps (which : String → Bool) (deps : List String) : List String :=
  (depLoop which deps []).1

/-- `build.py` lines 17-29 with the dependency list as a parameter: probe
every name, then either return True silently (nothing missing) or print the
missing-dependency report and return False.  The second component is the
trace of effects. -/
def checkDepsList (which : String → Bool) (deps : List String) : Bool × List Effect :=
  if (depLoop which deps []).1.isEmpty then
    (true, (depLoop which deps []).2)
  else
    (false, (depLoop which deps []).2 ++
      [Effect.print ("Missing dependencies: " ++
        String.intercalate ", " (depLoop which deps []).1)])

/-- `checkDeps` as the script calls it: the loop over the fixed list. -/
def checkDeps (env : Env) : Bool × List Effect :=
  checkDepsList env.which dependencies

/-- `os.makedirs path`: raises FileExistsError when the path already exists,
otherwise extends the filesystem with the path. -/
def makedirs (path : String) (fs : String → Bool) : Except String (String → Bool) :=
  if fs path then Except.error "FileExistsError"
  else Except.ok fun q => q == path || fs q

/-- `build.py` lines 41-42 as a fallible operation: test `os.path.exists`
and call `os.makedirs` only when the path is absent. -/
def ensureDir (path : String) (fs : String → Bool) : Except String (String → Bool) :=
  if fs path then Except.ok fs else makedirs path fs

/-- `build.py` lines 41-42 as executed inside `main`: the guard means
`os.makedirs` is only reached on a filesystem where it succeeds.  Returns the
filesystem afterwards and the trace (one `mkdir` when the directory was
created, nothing otherwise). -/
def ensureStep (path : String) (fs : String → Bool) : (String → Bool) × List Effect :=
  if fs path then (fs, [])
  else ((fun q => q == path || fs q), [Effect.mkdir path])

/-- `build.py` line 43: the fixed external build invocation. -/
def buildCmd : String := "argc --argc-build Main.sh dist/vmodem99-a"

/-- `build.py` lines 31-44.  Returns the trace of effects of one run of
`main` together with the filesystem when it returns. -/
def main (env : Env) : List Effect × (String → Bool) :=
  if (checkDeps env).1 then
    ((checkDeps env).2 ++
      [Effect.print "All dependencies are satisfied.",
       Effect.print "Building the project..."] ++
      (run_command env "echo \x27Compiling source code...\x27").1 ++
      (ensureStep "dist" env.pathExists).2 ++
      (run_command env buildCmd).1 ++
      [Effect.print "Build completed successfully."],
     (ensureStep "dist" env.pathExists).1)
  else
    ((checkDeps env).2 ++
      [Effect.print "Please install the missing dependencies and try again."],
     env.pathExists)

/-- `build.py` lines 46-47 run `main()` at top level.  The script never
calls `sys.exit` and `main` returns normally in every environment, so the
interpreter exits with status 0 no matter what `main` did. -/
def processExit (env : Env) : Nat := (fun _ => 0) (main env)

/-- The dependency names a trace probes, in order. -/
def probedNames (t : List Effect) : List String :=
  t.filterMap fun e => match e with
    | Effect.probe d => some d
    | _ => none

/-- A trace without its printed lines: the probes, spawns and directory
creations, in order. -/
def actions (t : List Effect) : List Effect :=
  t.filter fun e => match e with
    | Effect.print _ => false
    | _ => true

/-- A concrete environment where no tool resolves, every spawned command
exits 0 with empty output, and no path exists. -/
def envNone : Env :=
  { which := fun _ => false, run := fun _ => (0, "", ""), pathExists := fun _ => false }

/-- A concrete environment where every tool resolves and every spawned
command exits 0 with stdout "ok". -/
def envBuildOk : Env :=
  { which := fun _ => true, run := fun _ => (0, "ok", ""), pathExists := fun _ => false }

/-- A concrete environment where every tool resolves and every spawned
command exits 1 with stderr "boom". -/
def envBuildFail : Env :=
  { which := fun _ => true, run := fun _ => (1, "", "boom"), pathExists := fun _ => false }

/-- A concrete environment where every tool resolves but each spawned
command names an executable the shell cannot find: the shell reports
"not found" on stderr and exits with status 127. -/
def envSpawnFail : Env :=
  { which := fun _ => true,
    run := fun _ => (127, "", "sh: 1: definitely-not-a-real-tool: not found"),
    pathExists := fun _ => false }

/-- Like `envSpawnFail`, but the process does start, runs, and exits with
status 1 leaving the same stderr text. -/
def envRunFail : Env :=
  { which := fun _ => true,
    run := fun _ => (1, "", "sh: 1: definitely-not-a-real-tool: not found"),
    pathExists := fun _ => false }

theorem depLoop_eq (which : String → Bool) (deps acc : List String) :
    depLoop which deps acc =
      (acc ++ deps.filter (fun d => !which d), deps.map Effect.probe) := by
  induction deps generalizing acc with
  | nil => simp [depLoop]
  | cons dep rest ih =>
    by_cases h : which dep <;>
      simp [depLoop, h, ih, List.filter_cons]

theorem missing_deps_eq (which : String → Bool) (deps : List String) :
    missing_deps which deps = deps.filter fun d => !which d := by
  unfold missing_deps
  rw [depLoop_eq]
  simp

theorem spawn_mem_run_command (env : Env) (command : String) :
    Effect.spawn command ∈ (run_command env command).1 := by
  unfold run_command
  split <;> simp

theorem ensureDir_ok_of_ensureStep (path : String) (fs : String → Bool) :
    ensureDir path fs = Except.ok (ensureStep path fs).1 := by
  unfold ensureDir ensureStep makedirs
  split <;> simp

theorem checkDepsList_of_missing (which : String → Bool) (deps : List String)
    (h : missing_deps which deps ≠ []) :
    checkDepsList which deps =
      (false, deps.map Effect.probe ++
        [Effect.print ("Missing dependencies: " ++
          String.intercalate ", " (missing_deps which deps))]) := by
  have h1 : (depLoop which deps []).1 = missing_deps which deps := rfl
  have hfalse : (missing_deps which deps).isEmpty = false := by
    simpa [List.isEmpty_iff] using h
  have h2 : (depLoop which deps []).2 = deps.map Effect.probe := by
    rw [depLoop_eq]
  unfold checkDepsList
  rw [h1, hfalse, h2]
  simp

theorem checkDepsList_of_none_missing (which : String → Bool) (deps : List String)
    (h : missing_deps which deps = []) :
    checkDepsList which deps = (true, deps.map Effect.probe) := by
  have h1 : (depLoop which deps []).1 = missing_deps which deps := rfl
  have htrue : (missing_deps which deps).isEmpty = true := by
    simp [List.isEmpty_iff, h]
  have h2 : (depLoop which deps []).2 = deps.map Effect.probe := by
    rw [depLoop_eq]
  unfold checkDepsList
  rw [h1, htrue, h2]
  simp

theorem checkDepsList_fst (which : String → Bool) (deps : List String) :
    (checkDepsList which deps).1 = (missing_deps which deps).isEmpty := by
  unfold checkDepsList missing_deps
  split <;> simp_all

/-- Claim C1: over any input dependency list, the boolean result of the
dependency check is true exactly when every name resolves with `which`, and
the `missing_deps` list it builds holds exactly the unresolvable names, in
input order (the script calls `checkDepsList` on the fixed list
`dependencies`). -/
theorem checkDeps_ok_iff_and_missing_exact (which : String → Bool) (deps : List String) :
    ((checkDepsList which deps).1 = true ↔ ∀ d ∈ deps, which d = true) ∧
    missing_deps which deps = deps.filter fun d => !which d := by
  refine ⟨?_, missing_deps_eq which deps⟩
  rw [checkDepsList_fst, missing_deps_eq]
  simp [List.isEmpty_iff, List.filter_eq_nil_iff]

/-- Claim C4: the report of `run_command` is the success report (the spawn
followed by the captured stdout) exactly when the exit status of the child is
zero, and is the failure report (the spawn, an error line naming the failing
command, and the captured stderr) exactly when the exit status is non-zero. -/
theorem run_command_report (env : Env) (command : String) :
    ((env.run command).1 = 0 ↔
      (run_command env command).1 =
        [Effect.spawn command, Effect.print (env.run command).2.1]) ∧
    ((env.run command).1 ≠ 0 ↔
      (run_command env command).1 =
        [Effect.spawn command,
         Effect.print ("Error running command: " ++ command),
         Effect.print (env.run command).2.2]) := by
  unfold run_command
  by_cases h : (env.run command).1 = 0 <;> simp [h]

/-- Claim C5 counterexample: in the environment where no tool resolves, the
missing list is non-empty and yet the exit status of the process is 0, not
non-zero as the claim states. -/
theorem processExit_zero_despite_missing :
    missing_deps envNone.which dependencies ≠ [] ∧ processExit envNone = 0 :=
  ⟨by decide, rfl⟩

/-- Claim C5 amended: the script installs no exit-status handling at all: the
process exits with status 0 in every environment, whether or not
dependencies are missing. -/
theorem processExit_always_zero (env : Env) : processExit env = 0 := rfl

/-- Claim C6 at its failing input: a command whose executable the shell
cannot find (the shell itself runs, reports "not found" on stderr and exits
with status 127) produces a report from `run_command` identical to that of a
command that spawned, ran and exited with status 1 leaving the same stderr:
the same printed lines and the same None return value, so the two failure
kinds are not distinguishable in the result. -/
theorem run_command_spawnfail_indistinct :
    envSpawnFail.run "definitely-not-a-real-tool" =
      (127, "", "sh: 1: definitely-not-a-real-tool: not found") ∧
    envRunFail.run "definitely-not-a-real-tool" =
      (1, "", "sh: 1: definitely-not-a-real-tool: not found") ∧
    run_command envSpawnFail "definitely-not-a-real-tool" =
      run_command envRunFail "definitely-not-a-real-tool" :=
  ⟨rfl, rfl, rfl⟩

/-- Claim C7: the directory-ensure of `build.py` lines 41-42 is idempotent:
on a filesystem where the output directory already exists it raises no error
and returns the filesystem unchanged, and run twice in succession from any
starting filesystem it succeeds both times, the second run changes nothing,
and the output directory is present at the end (a path either exists or not,
so present means present exactly once). -/
theorem ensureDir_idempotent (fs : String → Bool) :
    (fs "dist" = true → ensureDir "dist" fs = Except.ok fs) ∧
    ∃ fs2, ensureDir "dist" fs = Except.ok fs2 ∧
      ensureDir "dist" fs2 = Except.ok fs2 ∧ fs2 "dist" = true := by
  by_cases h : fs "dist" = true
  · refine ⟨fun _ => by simp [ensureDir, h], fs, by simp [ensureDir, h], ?_, h⟩
    simp [ensureDir, h]
  · refine ⟨fun hc => absurd hc h, fun q => q == "dist" || fs q, ?_, ?_, by simp⟩
    · simp [ensureDir, makedirs, h]
    · simp [ensureDir]

theorem probedNames_append (a b : List Effect) :
    probedNames (a ++ b) = probedNames a ++ probedNames b := by
  unfold probedNames
  exact List.filterMap_append a b _

theorem probedNames_map_probe (l : List String) :
    probedNames (l.map Effect.probe) = l := by
  induction l with
  | nil => rfl
  | cons a t ih => simp_all [probedNames]

theorem probedNames_cons_print (s : String) (t : List Effect) :
    probedNames (Effect.print s :: t) = probedNames t := by
  simp [probedNames]

theorem probedNames_nil : probedNames [] = [] := rfl

theorem probedNames_run_command (env : Env) (command : String) :
    probedNames (run_command env command).1 = [] := by
  unfold run_command probedNames
  split <;> rfl

theorem probedNames_ensureStep (path : String) (fs : String → Bool) :
    probedNames (ensureStep path fs).2 = [] := by
  unfold ensureStep probedNames
  split <;> rfl

theorem actions_append (a b : List Effect) :
    actions (a ++ b) = actions a ++ actions b := by
  unfold actions
  exact List.filter_append a b

theorem actions_map_probe (l : List String) :
    actions (l.map Effect.probe) = l.map Effect.probe := by
  induction l with
  | nil => rfl
  | cons a t ih => simp_all [actions]

theorem actions_cons_print (s : String) (t : List Effect) :
    actions (Effect.print s :: t) = actions t := by
  simp [actions]

theorem actions_nil : actions [] = [] := rfl

theorem actions_run_command (env : Env) (command : String) :
    actions (run_command env command).1 = [Effect.spawn command] := by
  unfold run_command actions
  split <;> rfl

theorem actions_ensureStep (path : String) (fs : String → Bool) :
    actions (ensureStep path fs).2 = (ensureStep path fs).2 := by
  unfold ensureStep actions
  split <;> rfl

/-- Claim C2: when some dependency is missing, the trace of `main` is the
probes followed by the missing-dependency report and the remediation line,
and nothing else: no directory is created, no command is spawned, and the
filesystem comes back unchanged. -/
theorem main_aborts_on_missing (env : Env)
    (h : missing_deps env.which dependencies ≠ []) :
    (main env).1 =
      dependencies.map Effect.probe ++
        [Effect.print ("Missing dependencies: " ++
            String.intercalate ", " (missing_deps env.which dependencies)),
         Effect.print "Please install the missing dependencies and try again."] ∧
    (∀ p, Effect.mkdir p ∉ (main env).1) ∧
    (∀ c, Effect.spawn c ∉ (main env).1) ∧
    (main env).2 = env.pathExists := by
  have hmain : main env =
      (dependencies.map Effect.probe ++
        [Effect.print ("Missing dependencies: " ++
            String.intercalate ", " (missing_deps env.which dependencies)),
         Effect.print "Please install the missing dependencies and try again."],
       env.pathExists) := by
    unfold main
    rw [show checkDeps env = _ from checkDepsList_of_missing env.which dependencies h]
    simp
  refine ⟨by rw [hmain], fun p => ?_, fun c => ?_, by rw [hmain]⟩
  · rw [hmain]
    simp
  · rw [hmain]
    simp

/-- Claim C2 witness: in the concrete environment where no tool resolves,
the hypothesis holds and `main` returns the filesystem unchanged. -/
theorem main_aborts_on_missing_witness :
    missing_deps envNone.which dependencies ≠ [] ∧
    (main envNone).2 = envNone.pathExists :=
  ⟨by decide, (main_aborts_on_missing envNone (by decide)).2.2.2⟩

/-- Claim C3: when every dependency resolves, the last effect of `main` is
the final success line, printed after the build command was spawned — with no
condition on the exit status of any spawned command, so this holds whether
the build succeeded or failed. -/
theorem main_prints_success_after_build (env : Env)
    (h : ∀ d ∈ dependencies, env.which d = true) :
    (main env).1.getLast? = some (Effect.print "Build completed successfully.") ∧
    Effect.spawn buildCmd ∈ (main env).1 := by
  have hm : missing_deps env.which dependencies = [] := by
    rw [missing_deps_eq, List.filter_eq_nil_iff]
    intro d hd
    simp [h d hd]
  have hmain : main env =
      (dependencies.map Effect.probe ++
        [Effect.print "All dependencies are satisfied.",
         Effect.print "Building the project..."] ++
        (run_command env "echo \x27Compiling source code...\x27").1 ++
        (ensureStep "dist" env.pathExists).2 ++
        (run_command env buildCmd).1 ++
        [Effect.print "Build completed successfully."],
       (ensureStep "dist" env.pathExists).1) := by
    unfold main
    rw [show checkDeps env = _ from checkDepsList_of_none_missing env.which dependencies hm]
    simp
  constructor
  · rw [hmain]
    simp only [← List.append_assoc]
    rw [List.getLast?_concat]
  · rw [hmain]
    simp [List.mem_append, spawn_mem_run_command]

/-- Claim C3 witness: in the concrete environment where every tool resolves
and every spawned command exits with status 1, the final success line is
still the last effect and the build command is still spawned. -/
theorem main_prints_success_after_build_witness :
    (envBuildFail.run buildCmd).1 = 1 ∧
    (main envBuildFail).1.getLast? = some (Effect.print "Build completed successfully.") ∧
    Effect.spawn buildCmd ∈ (main envBuildFail).1 :=
  ⟨rfl, (main_prints_success_after_build envBuildFail (by decide)).1,
    (main_prints_success_after_build envBuildFail (by decide)).2⟩

/-- Claim C8 counterexample: with no tool resolving, `checkDeps` itself
writes the missing-dependency report to standard output, so its side effects
are not limited to the probes. -/
theorem checkDeps_prints_on_missing :
    Effect.print "Missing dependencies: figlet, argc, wget, curl, telnet, ssh, mosh, bash"
      ∈ (checkDeps envNone).2 := by
  decide

/-- Claim C8 amended: the probes write nothing to the streams of the program
(their output is piped away), and `checkDeps` itself writes nothing when
every dependency resolves; when some are missing, its one write beyond the
probes is the missing-dependency report on standard output. -/
theorem checkDeps_trace (env : Env) :
    (checkDeps env).2 =
      dependencies.map Effect.probe ++
        (if missing_deps env.which dependencies = [] then ([] : List Effect)
         else [Effect.print ("Missing dependencies: " ++
                 String.intercalate ", " (missing_deps env.which dependencies))]) := by
  by_cases h : missing_deps env.which dependencies = []
  · rw [show checkDeps env = _ from checkDepsList_of_none_missing env.which dependencies h,
      if_pos h]
    simp
  · rw [show checkDeps env = _ from checkDepsList_of_missing env.which dependencies h,
      if_neg h]

/-- Claim C9: the dependency list is exactly figlet, argc, wget, curl,
telnet, ssh, mosh, bash in that order, and in every environment one run of
`main` probes exactly those names in that order. -/
theorem dependencies_fixed_and_probed_in_order :
    dependencies = ["figlet", "argc", "wget", "curl", "telnet", "ssh", "mosh", "bash"] ∧
    ∀ env : Env, probedNames (main env).1 = dependencies := by
  refine ⟨rfl, fun env => ?_⟩
  by_cases h : missing_deps env.which dependencies = []
  · unfold main
    rw [show checkDeps env = _ from checkDepsList_of_none_missing env.which dependencies h]
    simp [probedNames_append, probedNames_map_probe, probedNames_cons_print,
      probedNames_run_command, probedNames_ensureStep, probedNames_nil]
  · unfold main
    rw [show checkDeps env = _ from checkDepsList_of_missing env.which dependencies h]
    simp [probedNames_append, probedNames_map_probe, probedNames_cons_print,
      probedNames_nil]

/-- Claim C10: `run_command` returns None on every input, and two runs whose
environments agree on tool resolution and on the initial filesystem — while
every spawned command may exit with different statuses and different output —
have the same non-print actions, the same last printed line, the same final
filesystem and the same process exit status. -/
theorem run_command_returns_none_and_build_result_ignored :
    (∀ (env : Env) (command : String), (run_command env command).2 = none) ∧
    ∀ e1 e2 : Env, e1.which = e2.which → e1.pathExists = e2.pathExists →
      actions (main e1).1 = actions (main e2).1 ∧
      (main e1).1.getLast? = (main e2).1.getLast? ∧
      (main e1).2 = (main e2).2 ∧
      processExit e1 = processExit e2 := by
  constructor
  · intro env command
    unfold run_command
    split <;> rfl
  · intro e1 e2 hw hp
    have h1 : missing_deps e1.which dependencies = missing_deps e2.which dependencies := by
      rw [hw]
    by_cases h : missing_deps e2.which dependencies = []
    · have hc1 := checkDepsList_of_none_missing e1.which dependencies (by rw [h1]; exact h)
      have hc2 := checkDepsList_of_none_missing e2.which dependencies h
      have hmain1 : main e1 =
          (dependencies.map Effect.probe ++
            [Effect.print "All dependencies are satisfied.",
             Effect.print "Building the project..."] ++
            (run_command e1 "echo \x27Compiling source code...\x27").1 ++
            (ensureStep "dist" e1.pathExists).2 ++
            (run_command e1 buildCmd).1 ++
            [Effect.print "Build completed successfully."],
           (ensureStep "dist" e1.pathExists).1) := by
        unfold main
        rw [show checkDeps e1 = _ from hc1]
        simp
      have hmain2 : main e2 =
          (dependencies.map Effect.probe ++
            [Effect.print "All dependencies are satisfied.",
             Effect.print "Building the project..."] ++
            (run_command e2 "echo \x27Compiling source code...\x27").1 ++
            (ensureStep "dist" e2.pathExists).2 ++
            (run_command e2 buildCmd).1 ++
            [Effect.print "Build completed successfully."],
           (ensureStep "dist" e2.pathExists).1) := by
        unfold main
        rw [show checkDeps e2 = _ from hc2]
        simp
      refine ⟨?_, ?_, ?_, rfl⟩
      · rw [hmain1, hmain2, hp]
        simp [actions_append, actions_map_probe, actions_cons_print,
          actions_run_command, actions_ensureStep, actions_nil]
      · rw [hmain1, hmain2]
        simp only [← List.append_assoc]
        rw [List.getLast?_concat, List.getLast?_concat]
      · rw [hmain1, hmain2, hp]
    · have hc1 := checkDepsList_of_missing e1.which dependencies (by rw [h1]; exact h)
      have hc2 := checkDepsList_of_missing e2.which dependencies h
      have hmain : main e1 = main e2 := by
        unfold main
        rw [show checkDeps e1 = _ from hc1, show checkDeps e2 = _ from hc2, h1, hp]
        simp
      rw [hmain]
      exact ⟨rfl, rfl, rfl, rfl⟩

end VModem
